import Mathlib

/- Verification development for the sact.epoch clock and timezone
   library: a shallow embedding of src/sact/epoch/clock.py and
   src/sact/epoch/timezone.py. The system timer (the Python call
   time.time()) is modelled by passing the current system time
   explicitly, as a rational number, to every call that samples it;
   Python float timestamps are modelled by rationals. -/

namespace SactEpoch

/-- Python int() conversion applied to a rational value: truncation
toward zero. Used by the raw-offset branch of ManageableClock.wait. -/
def pyInt (x : ℚ) : ℤ := if 0 ≤ x then ⌊x⌋ else ⌈x⌉

/-- State of ManageableClock (clock.py, __init__ at lines 162-164):
delta is the offset added to the system time while running, ft models
the _ft attribute (the freezed time), whose presence means the clock is
stopped. -/
structure ManageableClock where
  delta : ℚ
  ft : Option ℚ
deriving DecidableEq

/-- ManageableClock.__init__: delta = 0 and _ft = None, so a fresh
clock is running. -/
def ManageableClock.init : ManageableClock :=
  { delta := 0, ft := none }

/-- is_running property (clock.py lines 177-179): the clock is running
iff _ft is None. -/
def ManageableClock.is_running (c : ManageableClock) : Bool :=
  c.ft.isNone

/-- get_ts (clock.py lines 181-184): return _ft when stopped, and
time.time() + delta when running; t is the current system time. -/
def ManageableClock.get_ts (c : ManageableClock) (t : ℚ) : ℚ :=
  match c.ft with
  | some f => f
  | none => t + c.delta

/-- start (clock.py lines 166-171): return immediately when running;
otherwise set delta to self.ts - self.delta - self._ft, where the
property read self.ts yields _ft because the clock is still stopped,
then clear _ft. -/
def ManageableClock.start (c : ManageableClock) (t : ℚ) : ManageableClock :=
  match c.ft with
  | none => c
  | some f => { delta := c.get_ts t - c.delta - f, ft := none }

/-- stop (clock.py lines 173-175): unconditionally store
self.ts - self.delta into _ft, where self.ts is the property read. -/
def ManageableClock.stop (c : ManageableClock) (t : ℚ) : ManageableClock :=
  { c with ft := some (c.get_ts t - c.delta) }

/-- set_ts (clock.py lines 186-191): set delta to value - time.time();
when _ft is present, overwrite it with the value. -/
def ManageableClock.set_ts (c : ManageableClock) (v : ℚ) (t : ℚ) : ManageableClock :=
  { delta := v - t, ft := c.ft.map (fun _ => v) }

/-- Keyword arguments accepted by ManageableClock.wait, mirroring the
signature documented in interfaces.py (days, hours, minutes, seconds),
taken as integers. -/
structure WaitKwargs where
  days : ℤ
  hours : ℤ
  minutes : ℤ
  seconds : ℤ
deriving DecidableEq

/-- Total number of seconds described by the keyword arguments. -/
def WaitKwargs.totalSeconds (k : WaitKwargs) : ℤ :=
  ((k.days * 24 + k.hours) * 60 + k.minutes) * 60 + k.seconds

/-- Normal form of a Python datetime.timedelta object: a days field and
a seconds field with 0 <= seconds < 86400. The microseconds field is
identically zero for the integer keyword arguments modelled here, so it
is omitted. -/
structure Timedelta where
  days : ℤ
  seconds : ℤ
deriving DecidableEq

/-- Construction datetime.timedelta(**kwargs): Python normalizes using
floor division by 86400 for days and the matching nonnegative remainder
for seconds. -/
def Timedelta.ofKwargs (k : WaitKwargs) : Timedelta :=
  { days := k.totalSeconds.fdiv 86400, seconds := k.totalSeconds.fmod 86400 }

/-- The reduction applied at clock.py line 204:
timedelta.days * 86400 + timedelta.seconds. -/
def Timedelta.waitSeconds (d : Timedelta) : ℤ :=
  d.days * 86400 + d.seconds

/-- Value passed as the positional argument of wait: either a raw
number or a timedelta object. -/
inductive WaitArg
  | num (x : ℚ)
  | td (d : Timedelta)
deriving DecidableEq

/-- wait (clock.py lines 194-208). The arg parameter models the
optional positional argument of the source (None when absent); k models
the keyword arguments, which the source reads only when the positional
argument is None. The body of the source contains no raise statement
and cannot fail for the argument types modelled here, so every call
returns ok; the Except codomain records that a Python call could in
principle raise. -/
def ManageableClock.wait (c : ManageableClock) (arg : Option WaitArg)
    (k : WaitKwargs) (t : ℚ) : Except Unit ManageableClock :=
  let a := match arg with
    | none => WaitArg.td (Timedelta.ofKwargs k)
    | some a0 => a0
  let secs : ℤ := match a with
    | WaitArg.td d => d.waitSeconds
    | WaitArg.num x => pyInt x
  Except.ok (c.set_ts (c.get_ts t + (secs : ℚ)) t)

/-- The timezone objects of timezone.py: UTC with offset zero, TzTest
with a constant offset of 5 minutes, and TzSystem whose offset comes
from the host locale and is kept abstract as a parameter. -/
inductive Tz
  | utc
  | tzTest
  | system
deriving DecidableEq

/-- utcoffset in seconds: UTC.utcoffset returns zero (timezone.py lines
24-25), TzTest.utcoffset returns a timedelta of 5 minutes, that is 300
seconds (lines 113-114), and TzSystem reads the host locale, abstracted
here by the parameter sysOff. -/
def Tz.utcoffset (sysOff : ℤ) : Tz → ℤ
  | Tz.utc => 0
  | Tz.tzTest => 300
  | Tz.system => sysOff

/-- A Python datetime value: naive is the wall-clock position its
calendar fields encode, expressed as seconds since 1970-01-01 00:00:00,
and tz is the attached tzinfo (none for a naive value). -/
structure PyDatetime where
  naive : ℚ
  tz : Option Tz
deriving DecidableEq

/-- Arguments reaching Time.__new__ (clock.py lines 274-278): the
number of positional arguments, the wall-clock value the calendar-field
arguments encode, the tzinfo passed as eighth positional argument when
nargs = 8, and the tzinfo keyword (none when the keyword is absent,
some v when the keyword is present with value v, itself possibly the
Python None). -/
structure TimeNewArgs where
  nargs : ℕ
  fieldsNaive : ℚ
  posTz : Option Tz
  kwTz : Option (Option Tz)
deriving DecidableEq

/-- Time.__new__ (clock.py lines 274-278): when the tzinfo keyword is
absent and fewer than 8 positional arguments are given, tzinfo = UTC()
is inserted into the keywords; then the underlying datetime constructor
builds the value from the fields and the resulting tzinfo. -/
def Time.new (a : TimeNewArgs) : PyDatetime :=
  let kw := if a.kwTz = none ∧ a.nargs < 8 then some (some Tz.utc) else a.kwTz
  { naive := a.fieldsNaive,
    tz := match kw with
          | some v => v
          | none => a.posTz }

/-- Time.from_datetime (clock.py lines 284-312): raise ValueError when
the given datetime has no timezone, otherwise rebuild it as a Time with
eight positional arguments, the eighth being the tzinfo of the
argument. -/
def Time.from_datetime (dt : PyDatetime) : Except String PyDatetime :=
  match dt.tz with
  | none => Except.error "no timezone set"
  | some z =>
      Except.ok (Time.new { nargs := 8, fieldsNaive := dt.naive,
                            posTz := some z, kwTz := none })

/-- The replace call changing only the tzinfo of a datetime. -/
def PyDatetime.replaceTz (dt : PyDatetime) (z : Option Tz) : PyDatetime :=
  { dt with tz := z }

/-- Time.utcfromtimestamp (clock.py lines 323-333): the naive UTC
calendar value of the timestamp, with the UTC timezone then attached by
replace. -/
def Time.utcfromtimestamp (ts : ℚ) : PyDatetime :=
  { naive := ts, tz := some Tz.utc }

/-- Time.astimezone (clock.py lines 352-364): the underlying datetime
astimezone call, which requires an aware value, shifts the wall clock
by the difference of the two offsets and attaches the target timezone,
followed by from_datetime on the result. -/
def Time.astimezone (sysOff : ℤ) (dt : PyDatetime) (z : Tz) : Except String PyDatetime :=
  match dt.tz with
  | none => Except.error "astimezone requires an aware value"
  | some z0 =>
      Time.from_datetime
        { naive := dt.naive - (Tz.utcoffset sysOff z0 : ℚ) + (Tz.utcoffset sysOff z : ℚ),
          tz := some z }

/-- The two clock implementations that can sit in the registry: the
plain Clock whose ts property is time.time() itself (clock.py lines
51-53), and a ManageableClock with its overriding ts property. -/
inductive ClockImpl
  | plain
  | manageable (c : ManageableClock)
deriving DecidableEq

/-- The ts property of the active clock. -/
def ClockImpl.ts (ci : ClockImpl) (t : ℚ) : ℚ :=
  match ci with
  | ClockImpl.plain => t
  | ClockImpl.manageable c => c.get_ts t

/-- Clock.time (clock.py lines 45-49), inherited by ManageableClock:
Time.utcfromtimestamp applied to the ts property. -/
def ClockImpl.time (ci : ClockImpl) (t : ℚ) : PyDatetime :=
  Time.utcfromtimestamp (ci.ts t)

/-- The external component registry, reduced to the two entries the
code reads: the active IClock utility and the ITimeZone utility
registered under the name local. -/
structure Registry where
  clock : Option ClockImpl
  localTz : Option Tz

/-- TzLocal (timezone.py lines 124-126): the registered local timezone,
defaulting to the system-derived one. -/
def TzLocal (reg : Registry) : Tz :=
  reg.localTz.getD Tz.system

/-- Time.now (clock.py lines 314-317): the registered clock, defaulting
to the plain Clock, provides its time property, and UTC is attached by
replace. -/
def Time.now (reg : Registry) (t : ℚ) : PyDatetime :=
  ((reg.clock.getD ClockImpl.plain).time t).replaceTz (some Tz.utc)

/-- Time.now_lt (clock.py lines 319-321): Time.now converted with
astimezone to the TzLocal timezone. -/
def Time.now_lt (sysOff : ℤ) (reg : Registry) (t : ℚ) : Except String PyDatetime :=
  Time.astimezone sysOff (Time.now reg t) (TzLocal reg)

/-- The absolute instant a datetime denotes: its wall-clock seconds
minus its utcoffset. A naive value is read as UTC only to make the
function total; the development applies it to aware values. -/
def PyDatetime.absInstant (sysOff : ℤ) (dt : PyDatetime) : ℚ :=
  dt.naive - (Tz.utcoffset sysOff (dt.tz.getD Tz.utc) : ℚ)

/-- Hour, minute and second fields displayed for a wall-clock position
of n seconds past midnight. -/
def naiveHMS (n : ℤ) : ℤ × ℤ × ℤ :=
  (n / 3600 % 24, n / 60 % 60, n % 60)

/-- Reading the clock at the very instant of a set_ts gives back the
value just set, in both the running and the stopped state. -/
theorem get_ts_set_ts (c : ManageableClock) (v t : ℚ) :
    (c.set_ts v t).get_ts t = v := by
  cases h : c.ft <;>
    simp [ManageableClock.set_ts, ManageableClock.get_ts, h]

/-- The reduction days * 86400 + seconds applied to a normalized
timedelta recovers the total number of seconds of the keyword
arguments. -/
theorem waitSeconds_ofKwargs (k : WaitKwargs) :
    (Timedelta.ofKwargs k).waitSeconds = k.totalSeconds := by
  unfold Timedelta.ofKwargs Timedelta.waitSeconds
  have h := Int.fdiv_add_fmod k.totalSeconds 86400
  linarith

/-- C1: the claim states that the observable timestamp is the frozen
value while stopped and system time plus delta while running, and that
these formulas agree at every stop and start transition, so the reading
never jumps. The code violates the transition part: on a fresh clock,
set_ts 20 at system time 100 leaves the clock running with reading 20,
and the stop call at the same instant stores system time rather than
the current reading, so the reading jumps from 20 to 100. This theorem
evaluates the embedded code on that failing input. -/
theorem c1_stop_transition_jump :
    (ManageableClock.init.set_ts 20 100).is_running = true ∧
    (ManageableClock.init.set_ts 20 100).get_ts 100 = 20 ∧
    ((ManageableClock.init.set_ts 20 100).stop 100).get_ts 100 = 100 := by
  refine ⟨?_, ?_, ?_⟩ <;>
    norm_num [ManageableClock.init, ManageableClock.set_ts, ManageableClock.stop,
      ManageableClock.get_ts, ManageableClock.is_running]

/-- C2: the claim states that after stop with reading X, a start and an
immediately following read yield a value at least X. The code violates
this: on a fresh clock, set_ts 1000 at system time 0 (running,
delta = 1000), stop at time 0 (frozen reading 0), then start at time 0
recomputes delta as the negation of the old delta, so the very next
read returns -1000, a backward jump below X = 0. This theorem evaluates
the embedded code on that failing input. -/
theorem c2_start_backward_jump :
    ((ManageableClock.init.set_ts 1000 0).stop 0).get_ts 0 = 0 ∧
    (((ManageableClock.init.set_ts 1000 0).stop 0).start 0).get_ts 0 = -1000 := by
  refine ⟨?_, ?_⟩ <;>
    norm_num [ManageableClock.init, ManageableClock.set_ts, ManageableClock.stop,
      ManageableClock.start, ManageableClock.get_ts]

/-- C3: the claim states that stop on an already stopped clock is a
no-op for delta, the frozen value and every later reading, for every
stopped state, including one reached through set_ts while stopped. The
code violates this: stop at time 10 on a fresh clock, then set_ts 0
(reading 0, delta = -10), then a second stop stores
reading - delta = 10, changing the frozen reading from 0 to 10. This
theorem evaluates the embedded code on that failing input. -/
theorem c3_second_stop_changes_reading :
    ((ManageableClock.init.stop 10).set_ts 0 10).is_running = false ∧
    ((ManageableClock.init.stop 10).set_ts 0 10).get_ts 10 = 0 ∧
    (((ManageableClock.init.stop 10).set_ts 0 10).stop 10).get_ts 10 = 10 := by
  refine ⟨?_, ?_, ?_⟩ <;>
    norm_num [ManageableClock.init, ManageableClock.set_ts, ManageableClock.stop,
      ManageableClock.get_ts, ManageableClock.is_running]

/-- C4 counterexample: the claim states that calling wait with both an
explicit raw offset and structured duration keywords raises a usage
error rather than silently choosing one of the two. On the concrete
call wait(10, minutes=5) for a clock stopped at reading 0 at system
time 100, the code raises nothing: it returns normally, the raw offset
10 is applied and the 5 minutes keyword is ignored, so the new reading
is 10 and not 300 and not an error. -/
theorem c4_both_args_counterexample :
    (ManageableClock.wait { delta := 0, ft := some 0 }
        (some (WaitArg.num 10)) { days := 0, hours := 0, minutes := 5, seconds := 0 } 100) =
      Except.ok { delta := -90, ft := some 10 } ∧
    Except.map (fun c2 => ManageableClock.get_ts c2 100)
      (ManageableClock.wait { delta := 0, ft := some 0 }
        (some (WaitArg.num 10)) { days := 0, hours := 0, minutes := 5, seconds := 0 } 100) =
      Except.ok 10 := by
  refine ⟨?_, ?_⟩ <;>
    norm_num [ManageableClock.wait, ManageableClock.set_ts, ManageableClock.get_ts,
      pyInt, Except.map]

/-- C4 amended: when wait receives both an explicit positional argument
and structured duration keywords, no error is raised; the positional
argument takes precedence and the keyword components are silently
ignored, so the result does not depend on them at all. -/
theorem c4_raw_offset_wins (a : WaitArg) (k k2 : WaitKwargs) (t : ℚ) (c : ManageableClock) :
    c.wait (some a) k t = c.wait (some a) k2 t ∧
    ∃ c2, c.wait (some a) k t = Except.ok c2 :=
  ⟨rfl, ⟨_, rfl⟩⟩

/-- C5 counterexample: the claim states that constructing a Time from
calendar fields with no timezone supplied fails with an invalid-input
error for every such input. On the concrete constructor call
Time(1980, 1, 1), with three positional arguments and no tzinfo
keyword, the code does not fail: it returns a value tagged with the UTC
timezone. -/
theorem c5_no_tz_counterexample :
    Time.new { nargs := 3, fieldsNaive := 315532800, posTz := none, kwTz := none } =
      { naive := 315532800, tz := some Tz.utc } ∧
    (Time.new { nargs := 3, fieldsNaive := 315532800, posTz := none, kwTz := none }).tz ≠ none :=
  ⟨rfl, by decide⟩

/-- C5 amended: the public constructor never fails on calendar fields
without a timezone; it silently supplies UTC as the ambient default.
Only Time.from_datetime, the conversion from an existing datetime,
raises a ValueError when its argument carries no timezone, and a caller
whose datetime carries a timezone never sees that failure. -/
theorem c5_tz_handling (dt : PyDatetime) (a : TimeNewArgs) :
    (dt.tz = none → Time.from_datetime dt = Except.error "no timezone set") ∧
    (∀ z, dt.tz = some z → ∃ r, Time.from_datetime dt = Except.ok r ∧ r.tz = some z) ∧
    (a.kwTz = none → a.nargs < 8 → (Time.new a).tz = some Tz.utc) := by
  refine ⟨fun h => ?_, fun z hz => ?_, fun h1 h2 => ?_⟩
  · simp [Time.from_datetime, h]
  · refine ⟨Time.new { nargs := 8, fieldsNaive := dt.naive, posTz := some z, kwTz := none },
      ?_, ?_⟩
    · simp [Time.from_datetime, hz]
    · simp [Time.new]
  · simp [Time.new, h1, h2]

/-- C5 amended, witness: the three branches at concrete inputs. -/
theorem c5_tz_handling_witness :
    Time.from_datetime { naive := 0, tz := none } = Except.error "no timezone set" ∧
    (∃ r, Time.from_datetime { naive := 5, tz := some Tz.tzTest } = Except.ok r ∧
      r.tz = some Tz.tzTest) ∧
    (Time.new { nargs := 3, fieldsNaive := 0, posTz := none, kwTz := none }).tz = some Tz.utc :=
  ⟨(c5_tz_handling { naive := 0, tz := none }
      { nargs := 3, fieldsNaive := 0, posTz := none, kwTz := none }).1 rfl,
   (c5_tz_handling { naive := 5, tz := some Tz.tzTest }
      { nargs := 3, fieldsNaive := 0, posTz := none, kwTz := none }).2.1 Tz.tzTest rfl,
   (c5_tz_handling { naive := 0, tz := none }
      { nargs := 3, fieldsNaive := 0, posTz := none, kwTz := none }).2.2 rfl (by decide)⟩

/-- C6: set_ts leaves the run or stop state unchanged in both states,
and when the clock is stopped every subsequent read returns exactly the
value just set; in particular set_ts 0 while stopped gives reading 0
exactly. -/
theorem c6_set_ts_behavior (c : ManageableClock) (v t : ℚ) :
    (c.set_ts v t).is_running = c.is_running ∧
    (c.is_running = false → ∀ t2 : ℚ, (c.set_ts v t).get_ts t2 = v) := by
  cases h : c.ft with
  | none =>
      refine ⟨by simp [ManageableClock.set_ts, ManageableClock.is_running, h], fun hf _ => ?_⟩
      simp [ManageableClock.is_running, h] at hf
  | some f =>
      exact ⟨by simp [ManageableClock.set_ts, ManageableClock.is_running, h],
        fun _ t2 => by simp [ManageableClock.set_ts, ManageableClock.get_ts, h]⟩

/-- C6 witness: a clock stopped at reading 7 with delta 3, set to 0 at
system time 100, stays stopped and reads exactly 0 at system time 42. -/
theorem c6_set_ts_behavior_witness :
    (ManageableClock.set_ts { delta := 3, ft := some 7 } 0 100).is_running =
      ManageableClock.is_running { delta := 3, ft := some 7 } ∧
    (ManageableClock.set_ts { delta := 3, ft := some 7 } 0 100).get_ts 42 = 0 :=
  ⟨(c6_set_ts_behavior { delta := 3, ft := some 7 } 0 100).1,
   (c6_set_ts_behavior { delta := 3, ft := some 7 } 0 100).2 rfl 42⟩

/-- C9: when wait receives a raw numeric positional argument x, the
reading advances by exactly the Python int conversion of x, truncation
toward zero, whatever the state of the clock and whatever keyword
arguments accompany the call; in particular int of 0.9 is 0, so
wait(0.9) leaves the reading unchanged, and int of -1.5 is -1, so
wait(-1.5) moves the reading back exactly one second. -/
theorem c9_wait_raw_truncation (c : ManageableClock) (t x : ℚ) (k : WaitKwargs) :
    Except.map (fun c2 => ManageableClock.get_ts c2 t) (c.wait (some (WaitArg.num x)) k t) =
      Except.ok (c.get_ts t + (pyInt x : ℚ)) ∧
    pyInt (9 / 10) = 0 ∧
    pyInt (-(3 / 2)) = -1 := by
  refine ⟨?_, by norm_num [pyInt], ?_⟩
  · simp [ManageableClock.wait, Except.map, get_ts_set_ts]
  · rw [pyInt, if_neg (by norm_num), Int.ceil_neg]
    norm_num

/-- C7: wait with structured duration keywords converts the normalized
timedelta through days * 86400 plus its seconds component, which equals
the total seconds of the keywords, and adds that to the current
reading; the keywords of 5 minutes describe 300 seconds, a clock
stopped at reading 0 reads 300 after wait with 5 minutes, and a
negative total is accepted and moves the reading backward. -/
theorem c7_wait_structured_duration (c : ManageableClock) (t : ℚ) (k : WaitKwargs) :
    Except.map (fun c2 => ManageableClock.get_ts c2 t) (c.wait none k t) =
      Except.ok (c.get_ts t + (k.totalSeconds : ℚ)) ∧
    WaitKwargs.totalSeconds { days := 0, hours := 0, minutes := 5, seconds := 0 } = 300 ∧
    Except.map (fun c2 => ManageableClock.get_ts c2 t)
      (ManageableClock.wait { delta := c.delta, ft := some 0 } none
        { days := 0, hours := 0, minutes := 5, seconds := 0 } t) = Except.ok 300 ∧
    (k.totalSeconds < 0 → c.get_ts t + (k.totalSeconds : ℚ) < c.get_ts t) := by
  refine ⟨?_, by norm_num [WaitKwargs.totalSeconds], ?_, fun h => ?_⟩
  · simp [ManageableClock.wait, Except.map, get_ts_set_ts, waitSeconds_ofKwargs]
  · have h0 : ManageableClock.get_ts { delta := c.delta, ft := some 0 } t = 0 := by
      simp [ManageableClock.get_ts]
    norm_num [ManageableClock.wait, Except.map, get_ts_set_ts, waitSeconds_ofKwargs,
      h0, WaitKwargs.totalSeconds]
  · have h2 : ((k.totalSeconds : ℤ) : ℚ) < 0 := by exact_mod_cast h
    linarith

/-- C7 witness: a running clock with delta 1 at system time 2, after
wait with keywords describing -90 seconds, reads 90 seconds less, a
backward move. -/
theorem c7_wait_structured_duration_witness :
    Except.map (fun c2 => ManageableClock.get_ts c2 2)
      (ManageableClock.wait { delta := 1, ft := none } none
        { days := 0, hours := 0, minutes := 0, seconds := -90 } 2) =
      Except.ok (ManageableClock.get_ts { delta := 1, ft := none } 2 +
        (WaitKwargs.totalSeconds { days := 0, hours := 0, minutes := 0, seconds := -90 } : ℚ)) ∧
    ManageableClock.get_ts { delta := 1, ft := none } 2 +
        (WaitKwargs.totalSeconds { days := 0, hours := 0, minutes := 0, seconds := -90 } : ℚ) <
      ManageableClock.get_ts { delta := 1, ft := none } 2 :=
  ⟨(c7_wait_structured_duration { delta := 1, ft := none } 2
      { days := 0, hours := 0, minutes := 0, seconds := -90 }).1,
   (c7_wait_structured_duration { delta := 1, ft := none } 2
      { days := 0, hours := 0, minutes := 0, seconds := -90 }).2.2.2
     (by norm_num [WaitKwargs.totalSeconds])⟩

/-- C8: with a ManageableClock frozen at reading 0 registered as the
active clock and TzTest registered as the local timezone, Time.now
returns the UTC instant at the epoch, 1970-01-01 00:00:00 with offset
zero, and Time.now_lt returns the same absolute instant displayed with
a 5 minute offset, wall clock 1970-01-01 00:05:00, whatever the host
system offset and the current system time are. -/
theorem c8_now_and_now_lt (sysOff : ℤ) (reg : Registry) (c : ManageableClock) (t : ℚ)
    (h1 : reg.clock = some (ClockImpl.manageable c)) (h2 : c.ft = some 0)
    (h3 : reg.localTz = some Tz.tzTest) :
    Time.now reg t = { naive := 0, tz := some Tz.utc } ∧
    Time.now_lt sysOff reg t = Except.ok { naive := 300, tz := some Tz.tzTest } ∧
    PyDatetime.absInstant sysOff { naive := 300, tz := some Tz.tzTest } =
      PyDatetime.absInstant sysOff (Time.now reg t) ∧
    naiveHMS 300 = (0, 5, 0) := by
  have hnow : Time.now reg t = { naive := 0, tz := some Tz.utc } := by
    simp [Time.now, h1, ClockImpl.time, ClockImpl.ts, Time.utcfromtimestamp,
      PyDatetime.replaceTz, ManageableClock.get_ts, h2]
  refine ⟨hnow, ?_, ?_, by norm_num [naiveHMS]⟩
  · norm_num [Time.now_lt, hnow, TzLocal, h3, Time.astimezone, Tz.utcoffset,
      Time.from_datetime, Time.new]
  · norm_num [PyDatetime.absInstant, hnow, Tz.utcoffset]

/-- C8 witness: the concrete registry holding a ManageableClock frozen
at 0 and TzTest as local, sampled at system time 7 with system offset
0. -/
theorem c8_now_and_now_lt_witness :
    Time.now { clock := some (ClockImpl.manageable { delta := 0, ft := some 0 }),
               localTz := some Tz.tzTest } 7 = { naive := 0, tz := some Tz.utc } ∧
    Time.now_lt 0
        { clock := some (ClockImpl.manageable { delta := 0, ft := some 0 }),
          localTz := some Tz.tzTest } 7 =
      Except.ok { naive := 300, tz := some Tz.tzTest } ∧
    PyDatetime.absInstant 0 { naive := 300, tz := some Tz.tzTest } =
      PyDatetime.absInstant 0 (Time.now
        { clock := some (ClockImpl.manageable { delta := 0, ft := some 0 }),
          localTz := some Tz.tzTest } 7) ∧
    naiveHMS 300 = (0, 5, 0) :=
  c8_now_and_now_lt 0
    { clock := some (ClockImpl.manageable { delta := 0, ft := some 0 }),
      localTz := some Tz.tzTest }
    { delta := 0, ft := some 0 } 7 rfl rfl rfl

/-- C10: a Time built with fewer than 8 positional arguments and no
tzinfo keyword is automatically tagged with the UTC timezone, and a
tzinfo supplied through the keyword is used as given. -/
theorem c10_new_default_utc (a : TimeNewArgs) :
    (a.kwTz = none → a.nargs < 8 → (Time.new a).tz = some Tz.utc) ∧
    (∀ v, a.kwTz = some v → (Time.new a).tz = v) := by
  constructor
  · intro h1 h2
    simp [Time.new, h1, h2]
  · intro v hv
    simp [Time.new, hv]

/-- C10 witness: the call Time(1980, 1, 1), three positional arguments
and no keyword, is tagged UTC, and a call passing tzinfo = TzTest as a
keyword keeps it. -/
theorem c10_new_default_utc_witness :
    (Time.new { nargs := 3, fieldsNaive := 315532800, posTz := none, kwTz := none }).tz =
      some Tz.utc ∧
    (Time.new
        { nargs := 4, fieldsNaive := 0, posTz := none,
          kwTz := some (some Tz.tzTest) }).tz = some Tz.tzTest :=
  ⟨(c10_new_default_utc
      { nargs := 3, fieldsNaive := 315532800, posTz := none, kwTz := none }).1
      rfl (by norm_num),
   (c10_new_default_utc
      { nargs := 4, fieldsNaive := 0, posTz := none,
        kwTz := some (some Tz.tzTest) }).2 (some Tz.tzTest) rfl⟩

end SactEpoch
